import Mathlib

/-!
Verification development for the `redpanda` ORM/pandas adapter
(`src/redpanda/orm.py`, class `RedPanda`).

The class stores an entity constructor (`ormcls`), an engine, a query and a
mapping of loader options (`read_sql`).  `frame` resolves dialect-specific SQL
and parameters, merges the stored options with a `params` entry, loads a
dataframe through the tabular loader, optionally masks columns, and folds a
chain of transformations over the result.  `parse` lazily converts dataframe
rows back into entities.

The external collaborators (the dialect resolver `dialects.statement_and_params`
and the tabular loader `pandas.read_sql`) are treated as black boxes: they are
passed to `frame` as function arguments and universally quantified in the
theorems.  Python exceptions are modelled with `Except String`.
-/

set_option autoImplicit false

namespace RedpandaSpec

/-- Python values as far as the adapter inspects them: `None`, numbers,
strings, lists and dictionaries.  Option mappings, resolver parameters and
dataframe cells are all `Value`s. -/
inductive Value where
  | none : Value
  | int : Int → Value
  | str : String → Value
  | list : List Value → Value
  | dict : List (String × Value) → Value
deriving Repr

/-- A Python keyword-option mapping (string keys), as an association list;
lookup takes the first matching key. -/
abbrev Dict : Type := List (String × Value)

/-- `d.get(k)` / `d[k]`: first entry with key `k`, if any. -/
def dictLookup (k : String) : Dict → Option Value
  | [] => Option.none
  | kv :: rest => if kv.1 = k then Option.some kv.2 else dictLookup k rest

/-- Modelled from the spec: `utils.dictcombine` lives in `redpanda/utils.py`,
which is not under `src/`; the spec describes it as a merge utility
`merge(base, override)` that is right-biased on key collision.  Entries of the
base whose key the override also defines are dropped; all override entries are
kept. -/
def dictcombine (a b : Dict) : Dict :=
  a.filter (fun kv => (dictLookup kv.1 b).isNone) ++ b

theorem dictLookup_append (k : String) (a b : Dict) :
    dictLookup k (a ++ b) =
      match dictLookup k a with
      | Option.some v => Option.some v
      | Option.none => dictLookup k b := by
  induction a with
  | nil => rfl
  | cons kv rest ih =>
      by_cases h : kv.1 = k <;> simp [dictLookup, h, ih]

theorem dictLookup_filter_of_notin (k : String) (a b : Dict)
    (h : dictLookup k b = Option.none) :
    dictLookup k (a.filter (fun kv => (dictLookup kv.1 b).isNone)) =
      dictLookup k a := by
  induction a with
  | nil => rfl
  | cons kv rest ih =>
      by_cases hk : kv.1 = k
      · subst hk
        simp [List.filter_cons, h, dictLookup, ih]
      · cases hb : dictLookup kv.1 b <;>
          simp [List.filter_cons, hb, dictLookup, hk, ih]

/-- Right bias: a key the override defines gets the override's value. -/
theorem dictLookup_dictcombine_override (k : String) (a b : Dict) (v : Value)
    (h : dictLookup k b = Option.some v) :
    dictLookup k (dictcombine a b) = Option.some v := by
  unfold dictcombine
  rw [dictLookup_append]
  have hfilter : dictLookup k (a.filter (fun kv => (dictLookup kv.1 b).isNone)) =
      Option.none := by
    induction a with
    | nil => rfl
    | cons kv rest ih =>
        by_cases hk : kv.1 = k
        · subst hk
          simp [List.filter_cons, h, ih]
        · cases hb : dictLookup kv.1 b <;>
            simp [List.filter_cons, hb, dictLookup, hk, ih]
  rw [hfilter]
  exact h

/-- Keys the override does not define keep the base's value. -/
theorem dictLookup_dictcombine_base (k : String) (a b : Dict)
    (h : dictLookup k b = Option.none) :
    dictLookup k (dictcombine a b) = dictLookup k a := by
  unfold dictcombine
  rw [dictLookup_append, dictLookup_filter_of_notin k a b h]
  cases dictLookup k a <;> simp [h]

/-- A pandas `DataFrame`: ordered named columns, a row index, and rows of
cell values.  Well-formed frames (`WF`) are rectangular with one index label
per row. -/
structure DataFrame where
  columns : List String
  index : List Value
  rows : List (List Value)
deriving Repr

/-- Rectangularity: one index label per row, one cell per column in each
row.  pandas guarantees this for every frame it hands out. -/
def WF (df : DataFrame) : Prop :=
  df.index.length = df.rows.length ∧
    ∀ r ∈ df.rows, r.length = df.columns.length

/-- All-or-nothing map over a list (the `Option` traversal, written out so
its equations are directly usable in proofs). -/
def mapMOpt {α β : Type} (f : α → Option β) : List α → Option (List β)
  | [] => Option.some []
  | x :: xs => (f x).bind fun y => (mapMOpt f xs).map (fun ys => y :: ys)

/-- Index of the first column with name `c`, if any (pandas label lookup). -/
def colIdx (cols : List String) (c : String) : Option Nat :=
  match cols with
  | [] => Option.none
  | c0 :: rest => if c0 = c then Option.some 0 else (colIdx rest c).map (· + 1)

/-- Cell of row `i` at column position `j`. -/
def cellAt (df : DataFrame) (i j : Nat) : Option Value :=
  (df.rows.get? i).bind fun r => r.get? j

/-- Cell of row `i` in the column named `c`. -/
def getCell (df : DataFrame) (i : Nat) (c : String) : Option Value :=
  (colIdx df.columns c).bind fun j => cellAt df i j

/-- Restrict a row to the cells at the given column positions. -/
def projectRow (idxs : List Nat) (r : List Value) : List Value :=
  idxs.map fun i => (r.get? i).getD Value.none

/-- `df[names]` for a list of column labels: the frame with exactly those
columns in that order, same index and row order; a missing label raises
`KeyError`. -/
def selectStrCols (df : DataFrame) (names : List String) :
    Except String DataFrame :=
  match mapMOpt (colIdx df.columns) names with
  | Option.none => Except.error "KeyError"
  | Option.some idxs =>
      Except.ok { columns := names, index := df.index,
                  rows := df.rows.map (projectRow idxs) }

/-- `df[v]` for the stored `columns` option value `v`.  The claims only
exercise list-of-string values (and `None`, which skips masking in `frame`);
a scalar label, which in pandas would yield a `Series` rather than a frame,
is outside the tabular model and mapped to an error. -/
def maskColumns (df : DataFrame) (v : Value) : Except String DataFrame :=
  match v with
  | Value.list vs =>
      match mapMOpt (fun x => match x with
        | Value.str s => Option.some s
        | _ => Option.none) vs with
      | Option.some names => selectStrCols df names
      | Option.none => Except.error "KeyError"
  | _ => Except.error "TypeError"

/-- The `RedPanda` adapter (`src/redpanda/orm.py`): the constructor stores the
entity constructor, engine, query and loader options verbatim.  `ormcls` may
raise when called on a row mapping, hence `Except`. -/
structure RedPanda (E G Q : Type) where
  ormcls : Dict → Except String E
  engine : G
  query : Q
  read_sql : Dict

/-- `reduce((lambda x, y: y(x)), transformations, dataframe)`: fold the
transformation chain left to right, each output feeding the next input; an
exception aborts the chain. -/
def applyTransforms (ts : List (DataFrame → Except String DataFrame))
    (df : DataFrame) : Except String DataFrame :=
  match ts with
  | [] => Except.ok df
  | t :: rest =>
      match t df with
      | Except.error e => Except.error e
      | Except.ok df2 => applyTransforms rest df2

/-- Exception-aborting sequencing (Python control flow: an uncaught
exception skips the rest of the computation). -/
def exceptBind {α β : Type} (x : Except String α)
    (f : α → Except String β) : Except String β :=
  match x with
  | Except.error e => Except.error e
  | Except.ok a => f a

@[simp] theorem exceptBind_ok {α β : Type} (a : α) (f : α → Except String β) :
    exceptBind (Except.ok a) f = f a := rfl

@[simp] theorem exceptBind_error {α β : Type} (e : String)
    (f : α → Except String β) :
    exceptBind (Except.error e) f = Except.error e := rfl

/-- The tail of `RedPanda.frame` after `pandas.read_sql` returns: mask columns
when the stored options' `columns` entry is not `None` (`if
self.read_sql.get('columns') is not None`), then apply the
transformations. -/
def frameAfterLoad {E G Q : Type} (rp : RedPanda E G Q)
    (ts : List (DataFrame → Except String DataFrame))
    (res : Except String DataFrame) : Except String DataFrame :=
  exceptBind res fun df0 =>
    exceptBind
      (match dictLookup "columns" rp.read_sql with
        | Option.none => Except.ok df0
        | Option.some Value.none => Except.ok df0
        | Option.some v => maskColumns df0 v)
      (applyTransforms ts)

/-- `RedPanda.frame`: resolve engine-specific SQL and params through the
dialect resolver, merge the stored options with a `params` entry, load the
frame through the tabular loader, mask columns, apply the transformations.
The resolver (`dialects.statement_and_params`) and loader (`pandas.read_sql`)
are black-box collaborators passed in as functions. -/
def frame {E G Q : Type}
    (statement_and_params : G → Q → Except String (String × Value))
    (read_sql : String → G → Dict → Except String DataFrame)
    (rp : RedPanda E G Q)
    (ts : List (DataFrame → Except String DataFrame)) :
    Except String DataFrame :=
  match statement_and_params rp.engine rp.query with
  | Except.error e => Except.error e
  | Except.ok (sql, params) =>
      frameAfterLoad rp ts
        (read_sql sql rp.engine
          (dictcombine rp.read_sql [("params", params)]))

/-- Observable collaborator calls made by one `frame` invocation. -/
inductive Event where
  | resolve : Event
  | load : String → Dict → Event
deriving Repr

/-- `true` exactly on loader-invocation events. -/
def isLoad : Event → Bool
  | Event.load _ _ => true
  | Event.resolve => false

/-- `frame` instrumented with its trace of collaborator calls: one resolver
call, then — if resolution succeeds — one loader call with the merged
options. -/
def frameT {E G Q : Type}
    (statement_and_params : G → Q → Except String (String × Value))
    (read_sql : String → G → Dict → Except String DataFrame)
    (rp : RedPanda E G Q)
    (ts : List (DataFrame → Except String DataFrame)) :
    Except String DataFrame × List Event :=
  match statement_and_params rp.engine rp.query with
  | Except.error e => (Except.error e, [Event.resolve])
  | Except.ok (sql, params) =>
      let eff := dictcombine rp.read_sql [("params", params)]
      (frameAfterLoad rp ts (read_sql sql rp.engine eff),
        [Event.resolve, Event.load sql eff])

/-- `frame` threading the adapter object through every statement of the
method body: `frame` only reads `self`'s attributes, so the adapter comes
back in each branch. -/
def frameS {E G Q : Type}
    (statement_and_params : G → Q → Except String (String × Value))
    (read_sql : String → G → Dict → Except String DataFrame)
    (rp : RedPanda E G Q)
    (ts : List (DataFrame → Except String DataFrame)) :
    Except String DataFrame × RedPanda E G Q :=
  match statement_and_params rp.engine rp.query with
  | Except.error e => (Except.error e, rp)
  | Except.ok (sql, params) =>
      (frameAfterLoad rp ts
        (read_sql sql rp.engine
          (dictcombine rp.read_sql [("params", params)])), rp)

/-- `row.to_dict()`: the row's column-name-to-value mapping. -/
def rowDict (cols : List String) (r : List Value) : Dict :=
  cols.zip r

/-- `dataframe.iterrows()`: the `(index label, row mapping)` pairs in row
order. -/
def iterrows (df : DataFrame) : List (Value × Dict) :=
  df.index.zip (df.rows.map (rowDict df.columns))

/-- Observable behaviour of the `parse` generator on the iterated rows: the
entities yielded before the first constructor failure, and that failure if
one occurs; production ceases at the failing row, and the index label of each
pair is discarded. -/
def parseRows {E : Type} (ctor : Dict → Except String E) :
    List (Value × Dict) → List E × Option String
  | [] => ([], Option.none)
  | p :: rest =>
      match ctor p.2 with
      | Except.error e => ([], Option.some e)
      | Except.ok a =>
          let q := parseRows ctor rest
          (a :: q.1, q.2)

/-- `RedPanda.parse`: generate one entity per row of the dataframe, in row
order, constructing each from the row's `to_dict()` mapping. -/
def parse {E G Q : Type} (rp : RedPanda E G Q) (df : DataFrame) :
    List E × Option String :=
  parseRows rp.ormcls (iterrows df)

/-- `parse` threading the adapter object: the generator body only reads
`self.ormcls`, so the adapter comes back unchanged. -/
def parseS {E G Q : Type} (rp : RedPanda E G Q) (df : DataFrame) :
    (List E × Option String) × RedPanda E G Q :=
  (parseRows rp.ormcls (iterrows df), rp)

/-- `Except.ok` results as options (used to state which rows construct). -/
def exceptToOption {α : Type} : Except String α → Option α
  | Except.ok a => Option.some a
  | Except.error _ => Option.none

@[simp] theorem exceptToOption_ok {α : Type} (a : α) :
    exceptToOption (Except.ok a) = Option.some a := rfl

@[simp] theorem exceptToOption_error {α : Type} (e : String) :
    exceptToOption (Except.error e : Except String α) = Option.none := rfl

/-- The generator body only looks at the row mapping of each `iterrows`
pair, so the yielded sequence factors through the list of row mappings. -/
def parseDicts {E : Type} (ctor : Dict → Except String E) :
    List Dict → List E × Option String
  | [] => ([], Option.none)
  | d :: rest =>
      match ctor d with
      | Except.error e => ([], Option.some e)
      | Except.ok a =>
          let q := parseDicts ctor rest
          (a :: q.1, q.2)

theorem parseRows_eq_parseDicts {E : Type} (ctor : Dict → Except String E)
    (l : List (Value × Dict)) :
    parseRows ctor l = parseDicts ctor (l.map Prod.snd) := by
  induction l with
  | nil => rfl
  | cons p rest ih =>
      simp only [parseRows, List.map_cons, parseDicts]
      cases ctor p.2 <;> simp [ih]

/-- Under the rectangularity of pandas frames, the row mappings iterated by
`parse` are exactly the rows' `to_dict()` mappings, index labels dropped. -/
theorem iterrows_map_snd (df : DataFrame)
    (h : df.index.length = df.rows.length) :
    (iterrows df).map Prod.snd = df.rows.map (rowDict df.columns) := by
  unfold iterrows
  apply List.map_snd_zip
  simp [h]

theorem applyTransforms_append
    (ts1 ts2 : List (DataFrame → Except String DataFrame)) (df : DataFrame) :
    applyTransforms (ts1 ++ ts2) df =
      exceptBind (applyTransforms ts1 df) (applyTransforms ts2) := by
  induction ts1 generalizing df with
  | nil => rfl
  | cons t rest ih =>
      simp only [List.cons_append, applyTransforms]
      cases t df <;> simp [ih]

theorem exceptBind_applyTransforms_nil (m : Except String DataFrame)
    (ts : List (DataFrame → Except String DataFrame)) :
    exceptBind (exceptBind m (applyTransforms [])) (applyTransforms ts) =
      exceptBind m (applyTransforms ts) := by
  cases m <;> simp [applyTransforms]

/-- The transformation chain acts after everything else `frame` does: the
chain folds over the result of the transformation-free call. -/
theorem frame_transforms_factor {E G Q : Type}
    (R : G → Q → Except String (String × Value))
    (L : String → G → Dict → Except String DataFrame)
    (rp : RedPanda E G Q) (ts : List (DataFrame → Except String DataFrame)) :
    frame R L rp ts = exceptBind (frame R L rp []) (applyTransforms ts) := by
  unfold frame
  cases R rp.engine rp.query with
  | error e => rfl
  | ok sp =>
      obtain ⟨sql, params⟩ := sp
      simp only
      unfold frameAfterLoad
      cases L sql rp.engine (dictcombine rp.read_sql [("params", params)]) with
      | error e => rfl
      | ok df0 =>
          simp only [exceptBind_ok]
          exact (exceptBind_applyTransforms_nil _ ts).symm

theorem mapMOpt_length {α β : Type} (f : α → Option β) (l : List α)
    (l2 : List β) (h : mapMOpt f l = Option.some l2) :
    l2.length = l.length := by
  induction l generalizing l2 with
  | nil =>
      simp only [mapMOpt] at h
      cases h
      rfl
  | cons x xs ih =>
      simp only [mapMOpt] at h
      cases hf : f x with
      | none => rw [hf] at h; cases h
      | some y =>
          rw [hf] at h
          cases hr : mapMOpt f xs with
          | none => rw [hr] at h; cases h
          | some ys =>
              rw [hr] at h
              cases h
              simp [ih ys hr]

theorem mapMOpt_get? {α β : Type} (f : α → Option β) (l : List α)
    (l2 : List β) (h : mapMOpt f l = Option.some l2) (j : Nat) :
    l2.get? j = (l.get? j).bind f := by
  induction l generalizing l2 j with
  | nil =>
      simp only [mapMOpt] at h
      cases h
      simp
  | cons x xs ih =>
      simp only [mapMOpt] at h
      cases hf : f x with
      | none => rw [hf] at h; cases h
      | some y =>
          rw [hf] at h
          cases hr : mapMOpt f xs with
          | none => rw [hr] at h; cases h
          | some ys =>
              rw [hr] at h
              cases h
              cases j with
              | zero => simp [hf]
              | succ j => simpa using ih ys hr j

theorem mapMOpt_isSome_of_forall {α β : Type} (f : α → Option β) (l : List α)
    (h : ∀ x ∈ l, (f x).isSome) : ∃ l2, mapMOpt f l = Option.some l2 := by
  induction l with
  | nil => exact ⟨[], rfl⟩
  | cons x xs ih =>
      obtain ⟨ys, hys⟩ := ih (fun a ha => h a (List.mem_cons_of_mem x ha))
      have hx := h x (List.mem_cons_self x xs)
      cases hf : f x with
      | none => rw [hf] at hx; cases hx
      | some y => exact ⟨y :: ys, by simp [mapMOpt, hf, hys]⟩

theorem mapMOpt_none_of_exists {α β : Type} (f : α → Option β) (l : List α)
    (x : α) (hx : x ∈ l) (hf : f x = Option.none) :
    mapMOpt f l = Option.none := by
  induction l with
  | nil => cases hx
  | cons y ys ih =>
      rcases List.mem_cons.mp hx with h | h
      · subst h
        simp [mapMOpt, hf]
      · simp only [mapMOpt, ih h]
        cases f y <;> rfl

theorem colIdx_lt_length (cols : List String) (c : String) (j : Nat)
    (h : colIdx cols c = Option.some j) : j < cols.length := by
  induction cols generalizing j with
  | nil => cases h
  | cons c0 rest ih =>
      unfold colIdx at h
      by_cases hc : c0 = c
      · rw [if_pos hc] at h
        cases h
        simp
      · rw [if_neg hc] at h
        cases hr : colIdx rest c with
        | none => rw [hr] at h; cases h
        | some j0 =>
            rw [hr] at h
            cases h
            have := ih j0 hr
            simpa using Nat.succ_lt_succ this

theorem colIdx_isSome_iff_mem (cols : List String) (c : String) :
    (colIdx cols c).isSome ↔ c ∈ cols := by
  induction cols with
  | nil => simp [colIdx]
  | cons c0 rest ih =>
      unfold colIdx
      by_cases hc : c0 = c
      · subst hc
        simp
      · rw [if_neg hc]
        cases hr : colIdx rest c <;>
          simp [hr, List.mem_cons, Ne.symm hc] <;> simp [hr] at ih <;>
            simp [ih]

/-- The string-extraction pass `maskColumns` runs on a list of string-valued
labels succeeds and returns the strings themselves. -/
theorem mapMOpt_strOf_map_str (names : List String) :
    mapMOpt (fun x => match x with
      | Value.str s => Option.some s
      | _ => Option.none) (names.map Value.str) = Option.some names := by
  induction names with
  | nil => rfl
  | cons n rest ih => simp [mapMOpt, ih]

theorem maskColumns_str_list (df : DataFrame) (names : List String) :
    maskColumns df (Value.list (names.map Value.str)) =
      selectStrCols df names := by
  simp [maskColumns, mapMOpt_strOf_map_str]

theorem selectStrCols_missing (df : DataFrame) (names : List String)
    (c : String) (hc : c ∈ names) (habs : c ∉ df.columns) :
    selectStrCols df names = Except.error "KeyError" := by
  have hcol : colIdx df.columns c = Option.none := by
    cases h : colIdx df.columns c with
    | none => rfl
    | some j =>
        exact absurd ((colIdx_isSome_iff_mem df.columns c).mp (by simp [h]))
          habs
  unfold selectStrCols
  rw [mapMOpt_none_of_exists (colIdx df.columns) names c hc hcol]

theorem selectStrCols_all_present (df : DataFrame) (names : List String)
    (hwf : WF df) (hall : ∀ c ∈ names, c ∈ df.columns) :
    ∃ df2, selectStrCols df names = Except.ok df2 ∧
      df2.columns = names ∧ df2.index = df.index ∧
      df2.rows.length = df.rows.length ∧
      ∀ i j, cellAt df2 i j = (names.get? j).bind (fun c => getCell df i c) := by
  obtain ⟨idxs, hidx⟩ := mapMOpt_isSome_of_forall (colIdx df.columns) names
    (fun c hc => (colIdx_isSome_iff_mem df.columns c).mpr (hall c hc))
  refine ⟨{ columns := names, index := df.index,
            rows := df.rows.map (projectRow idxs) }, ?_, rfl, rfl, by simp, ?_⟩
  · unfold selectStrCols
    rw [hidx]
  · intro i j
    unfold cellAt getCell cellAt
    simp only [List.get?_map]
    cases hrow : df.rows.get? i with
    | none =>
        simp only [Option.map_none', Option.none_bind]
        cases names.get? j with
        | none => rfl
        | some c =>
            simp only [Option.some_bind]
            cases colIdx df.columns c <;> simp [hrow]
    | some r =>
        simp only [Option.map_some', Option.some_bind]
        unfold projectRow
        simp only [List.get?_map]
        rw [mapMOpt_get? (colIdx df.columns) names idxs hidx j]
        cases hn : names.get? j with
        | none => rfl
        | some c =>
            simp only [Option.some_bind]
            cases hc : colIdx df.columns c with
            | none => simp
            | some ix =>
                have hlt : ix < df.columns.length :=
                  colIdx_lt_length df.columns c ix hc
                have hrlen : r.length = df.columns.length :=
                  hwf.2 r (List.get?_mem hrow)
                have hxr : ix < r.length := by rw [hrlen]; exact hlt
                simp only [Option.map_some', Option.some_bind]
                rw [List.get?_eq_get hxr]
                simp

theorem frame_resolved {E G Q : Type}
    (R : G → Q → Except String (String × Value))
    (L : String → G → Dict → Except String DataFrame)
    (rp : RedPanda E G Q) (ts : List (DataFrame → Except String DataFrame))
    (sql : String) (params : Value)
    (hres : R rp.engine rp.query = Except.ok (sql, params)) :
    frame R L rp ts =
      frameAfterLoad rp ts
        (L sql rp.engine (dictcombine rp.read_sql [("params", params)])) := by
  unfold frame
  rw [hres]

theorem frameAfterLoad_ok_nomask {E G Q : Type} (rp : RedPanda E G Q)
    (ts : List (DataFrame → Except String DataFrame)) (df0 : DataFrame)
    (hcols : dictLookup "columns" rp.read_sql = Option.none ∨
      dictLookup "columns" rp.read_sql = Option.some Value.none) :
    frameAfterLoad rp ts (Except.ok df0) = applyTransforms ts df0 := by
  unfold frameAfterLoad
  rcases hcols with h | h <;> simp [exceptBind_ok, h]

theorem frameAfterLoad_ok_mask {E G Q : Type} (rp : RedPanda E G Q)
    (ts : List (DataFrame → Except String DataFrame)) (df0 : DataFrame)
    (v : Value) (hcols : dictLookup "columns" rp.read_sql = Option.some v)
    (hv : v ≠ Value.none) :
    frameAfterLoad rp ts (Except.ok df0) =
      exceptBind (maskColumns df0 v) (applyTransforms ts) := by
  unfold frameAfterLoad
  simp only [exceptBind_ok]
  rw [hcols]
  cases v with
  | none => exact absurd rfl hv
  | int n => rfl
  | str s => rfl
  | list vs => rfl
  | dict d => rfl

theorem parse_eq_parseDicts {E G Q : Type} (rp : RedPanda E G Q)
    (df : DataFrame) (h : df.index.length = df.rows.length) :
    parse rp df = parseDicts rp.ormcls (df.rows.map (rowDict df.columns)) := by
  unfold parse
  rw [parseRows_eq_parseDicts, iterrows_map_snd df h]

theorem parseDicts_all_ok {E : Type} (ctor : Dict → Except String E)
    (ds : List Dict) (ents : List E)
    (hok : mapMOpt (fun d => exceptToOption (ctor d)) ds = Option.some ents) :
    parseDicts ctor ds = (ents, Option.none) := by
  induction ds generalizing ents with
  | nil =>
      simp only [mapMOpt] at hok
      cases hok
      rfl
  | cons d rest ih =>
      simp only [mapMOpt] at hok
      cases hc : ctor d with
      | error e => rw [hc] at hok; cases hok
      | ok a =>
          rw [hc] at hok
          simp only [exceptToOption_ok, Option.some_bind] at hok
          cases hr : mapMOpt (fun d => exceptToOption (ctor d)) rest with
          | none => rw [hr] at hok; cases hok
          | some es =>
              rw [hr] at hok
              cases hok
              simp [parseDicts, hc, ih es hr]

theorem parseDicts_prefix_error {E : Type} (ctor : Dict → Except String E)
    (i : Nat) (ds : List Dict) (e : String)
    (hpre : ∀ j, j < i → ∃ d a, ds.get? j = Option.some d ∧
      ctor d = Except.ok a)
    (hi : ∃ d, ds.get? i = Option.some d ∧ ctor d = Except.error e) :
    (parseDicts ctor ds).1.length = i ∧
      (parseDicts ctor ds).2 = Option.some e ∧
      ∀ j, j < i → (parseDicts ctor ds).1.get? j =
        (ds.get? j).bind fun d => exceptToOption (ctor d) := by
  induction i generalizing ds with
  | zero =>
      obtain ⟨d, hd, he⟩ := hi
      cases ds with
      | nil => cases hd
      | cons d0 rest =>
          simp only [List.get?] at hd
          cases hd
          refine ⟨?_, ?_, ?_⟩
          · simp [parseDicts, he]
          · simp [parseDicts, he]
          · intro j hj
            cases hj
  | succ i ih =>
      cases ds with
      | nil =>
          obtain ⟨d, hd, _⟩ := hi
          cases hd
      | cons d0 rest =>
          obtain ⟨d0', a0, hd0, ha0⟩ := hpre 0 (Nat.succ_pos i)
          simp only [List.get?] at hd0
          cases hd0
          have hpre' : ∀ j, j < i → ∃ d a, rest.get? j = Option.some d ∧
              ctor d = Except.ok a := by
            intro j hj
            exact hpre (j + 1) (Nat.succ_lt_succ hj)
          have hi' : ∃ d, rest.get? i = Option.some d ∧
              ctor d = Except.error e := hi
          obtain ⟨h1, h2, h3⟩ := ih rest hpre' hi'
          refine ⟨?_, ?_, ?_⟩
          · simp [parseDicts, ha0, h1]
          · simp [parseDicts, ha0, h2]
          · intro j hj
            cases j with
            | zero => simp [parseDicts, ha0, exceptToOption]
            | succ j =>
                have hj' : j < i := Nat.lt_of_succ_lt_succ hj
                simp only [parseDicts, ha0, List.get?]
                exact h3 j hj'

/-! Concrete fixtures used by the witness theorems. -/

/-- Resolved parameter mapping returned by the concrete resolver. -/
def wParams : Value := Value.dict [("p", Value.int 2)]

/-- A concrete dialect resolver: always succeeds. -/
def wR : Unit → Unit → Except String (String × Value) :=
  fun _ _ => Except.ok ("SELECT x", wParams)

/-- A concrete loaded dataframe with three columns and two rows. -/
def wDF : DataFrame :=
  { columns := ["a", "b", "c"],
    index := [Value.int 0, Value.int 1],
    rows := [[Value.int 1, Value.int 2, Value.int 3],
             [Value.int 4, Value.int 5, Value.int 6]] }

/-- A concrete tabular loader: always returns `wDF`. -/
def wL : String → Unit → Dict → Except String DataFrame :=
  fun _ _ _ => Except.ok wDF

/-- A concrete entity constructor: reads the `a` field, failing when it is
not an integer. -/
def wCtor : Dict → Except String Int :=
  fun d =>
    match dictLookup "a" d with
    | Option.some (Value.int n) => Except.ok n
    | _ => Except.error "badrow"

/-- A concrete adapter whose stored options define both `params` and
`index_col`. -/
def wRP : RedPanda Int Unit Unit :=
  { ormcls := wCtor, engine := (), query := (),
    read_sql := [("params", Value.dict [("p", Value.int 1)]),
                 ("index_col", Value.str "id")] }

/-- A concrete adapter with no `columns` option. -/
def wRPnocols : RedPanda Int Unit Unit :=
  { ormcls := wCtor, engine := (), query := (),
    read_sql := [("index_col", Value.str "id")] }

/-- A concrete adapter with `columns=None`. -/
def wRPnonecols : RedPanda Int Unit Unit :=
  { ormcls := wCtor, engine := (), query := (),
    read_sql := [("columns", Value.none)] }

/-- A concrete adapter selecting columns `["b", "a"]`. -/
def wRPcols : RedPanda Int Unit Unit :=
  { ormcls := wCtor, engine := (), query := (),
    read_sql := [("columns", Value.list [Value.str "b", Value.str "a"])] }

/-- A concrete adapter whose `columns` option asks for an absent column. -/
def wRPbadcols : RedPanda Int Unit Unit :=
  { ormcls := wCtor, engine := (), query := (),
    read_sql := [("columns", Value.list [Value.str "z"])] }

/-- C1: In `frame()`, the options passed to the tabular loader are the
right-biased merge of the stored options with a `params` entry set to the
resolver-returned parameters: the merged mapping gives `params` the resolved
value even when the stored options also define `params`, and every other key
keeps its stored value. -/
theorem frame_loader_options_merge {E G Q : Type}
    (R : G → Q → Except String (String × Value))
    (L : String → G → Dict → Except String DataFrame)
    (rp : RedPanda E G Q) (ts : List (DataFrame → Except String DataFrame))
    (sql : String) (params : Value)
    (hres : R rp.engine rp.query = Except.ok (sql, params)) :
    ∃ eff, (frameT R L rp ts).2 = [Event.resolve, Event.load sql eff] ∧
      dictLookup "params" eff = Option.some params ∧
      ∀ k, k ≠ "params" → dictLookup k eff = dictLookup k rp.read_sql := by
  refine ⟨dictcombine rp.read_sql [("params", params)], ?_, ?_, ?_⟩
  · unfold frameT
    rw [hres]
  · exact dictLookup_dictcombine_override _ rp.read_sql _ params
      (by simp [dictLookup])
  · intro k hk
    exact dictLookup_dictcombine_base k rp.read_sql _
      (by simp [dictLookup, Ne.symm hk])

/-- Witness for C1: the merge at a concrete adapter whose stored options
define both `params` and `index_col`. -/
theorem frame_loader_options_merge_witness :
    ∃ eff, (frameT wR wL wRP []).2 =
        [Event.resolve, Event.load "SELECT x" eff] ∧
      dictLookup "params" eff = Option.some wParams ∧
      ∀ k, k ≠ "params" → dictLookup k eff = dictLookup k wRP.read_sql :=
  frame_loader_options_merge wR wL wRP [] "SELECT x" wParams rfl

/-- C3: `frame(t1, t2)` equals computing `frame()` with no transformations
and then applying `t2 (t1 result)`: the chain is applied left-to-right in
call-argument order, each output feeding the next input. -/
theorem frame_transform_chain_left_to_right {E G Q : Type}
    (R : G → Q → Except String (String × Value))
    (L : String → G → Dict → Except String DataFrame)
    (rp : RedPanda E G Q) (t1 t2 : DataFrame → DataFrame) :
    frame R L rp [fun d => Except.ok (t1 d), fun d => Except.ok (t2 d)] =
      Except.map (fun d => t2 (t1 d)) (frame R L rp []) := by
  rw [frame_transforms_factor]
  cases frame R L rp [] <;> simp [applyTransforms, Except.map, exceptBind]

/-- C5: neither `frame` nor `parse` mutates the adapter's stored state: the
state-threaded versions return the adapter unchanged (same entity type,
engine, query and options) while computing the same result. -/
theorem adapter_unchanged_by_frame_and_parse {E G Q : Type}
    (R : G → Q → Except String (String × Value))
    (L : String → G → Dict → Except String DataFrame)
    (rp : RedPanda E G Q) (ts : List (DataFrame → Except String DataFrame))
    (df : DataFrame) :
    (frameS R L rp ts).2 = rp ∧ (parseS rp df).2 = rp ∧
      (frameS R L rp ts).1 = frame R L rp ts ∧
      (parseS rp df).1 = parse rp df := by
  refine ⟨?_, rfl, ?_, rfl⟩
  · unfold frameS
    cases R rp.engine rp.query with
    | error e => rfl
    | ok sp => obtain ⟨sql, params⟩ := sp; rfl
  · unfold frameS frame
    cases R rp.engine rp.query with
    | error e => rfl
    | ok sp => obtain ⟨sql, params⟩ := sp; rfl

/-- C8: `frame()` performs no caching: a call whose resolution succeeds
makes exactly one resolver call and one loader call, two consecutive calls
make two loader calls, and the instrumented call computes exactly the plain
`frame` result — nothing is reused from an earlier call. -/
theorem frame_no_caching {E G Q : Type}
    (R : G → Q → Except String (String × Value))
    (L : String → G → Dict → Except String DataFrame)
    (rp : RedPanda E G Q) (ts : List (DataFrame → Except String DataFrame))
    (sql : String) (params : Value)
    (hres : R rp.engine rp.query = Except.ok (sql, params)) :
    (frameT R L rp ts).2 =
      [Event.resolve,
        Event.load sql (dictcombine rp.read_sql [("params", params)])] ∧
      ((frameT R L rp ts).2).countP isLoad = 1 ∧
      (((frameT R L rp ts).2) ++ ((frameT R L rp ts).2)).countP isLoad = 2 ∧
      (frameT R L rp ts).1 = frame R L rp ts := by
  have htr : (frameT R L rp ts).2 =
      [Event.resolve,
        Event.load sql (dictcombine rp.read_sql [("params", params)])] := by
    unfold frameT
    rw [hres]
  refine ⟨htr, ?_, ?_, ?_⟩
  · rw [htr]
    rfl
  · rw [htr]
    rfl
  · unfold frameT frame
    rw [hres]

/-- Witness for C8 at the concrete adapter and collaborators. -/
theorem frame_no_caching_witness :
    (frameT wR wL wRP []).2 =
      [Event.resolve,
        Event.load "SELECT x" (dictcombine wRP.read_sql [("params", wParams)])] ∧
      ((frameT wR wL wRP []).2).countP isLoad = 1 ∧
      (((frameT wR wL wRP []).2) ++ ((frameT wR wL wRP []).2)).countP isLoad
        = 2 ∧
      (frameT wR wL wRP []).1 = frame wR wL wRP [] :=
  frame_no_caching wR wL wRP [] "SELECT x" wParams rfl

/-- C9: the column-projection step of `frame()` runs exactly when the stored
options' `columns` value is present and not `None`: an absent key or an
explicit `columns=None` both leave the loaded table untouched (before
transformations), any other value triggers projection, and the merged
options passed to the loader agree with the stored options on `columns`, so
the decision made from the stored options coincides with one made from the
merged options. -/
theorem frame_mask_iff_columns_not_none {E G Q : Type} :
    (∀ (R : G → Q → Except String (String × Value))
        (L : String → G → Dict → Except String DataFrame)
        (rp : RedPanda E G Q)
        (ts : List (DataFrame → Except String DataFrame))
        (sql : String) (params : Value),
        R rp.engine rp.query = Except.ok (sql, params) →
        dictLookup "columns" rp.read_sql = Option.none →
        frame R L rp ts =
          exceptBind
            (L sql rp.engine (dictcombine rp.read_sql [("params", params)]))
            (applyTransforms ts)) ∧
    (∀ (R : G → Q → Except String (String × Value))
        (L : String → G → Dict → Except String DataFrame)
        (rp : RedPanda E G Q)
        (ts : List (DataFrame → Except String DataFrame))
        (sql : String) (params : Value),
        R rp.engine rp.query = Except.ok (sql, params) →
        dictLookup "columns" rp.read_sql = Option.some Value.none →
        frame R L rp ts =
          exceptBind
            (L sql rp.engine (dictcombine rp.read_sql [("params", params)]))
            (applyTransforms ts)) ∧
    (∀ (R : G → Q → Except String (String × Value))
        (L : String → G → Dict → Except String DataFrame)
        (rp : RedPanda E G Q)
        (ts : List (DataFrame → Except String DataFrame))
        (sql : String) (params : Value) (df0 : DataFrame) (v : Value),
        R rp.engine rp.query = Except.ok (sql, params) →
        L sql rp.engine (dictcombine rp.read_sql [("params", params)]) =
          Except.ok df0 →
        dictLookup "columns" rp.read_sql = Option.some v →
        v ≠ Value.none →
        frame R L rp ts = exceptBind (maskColumns df0 v) (applyTransforms ts)) ∧
    (∀ (a : Dict) (p : Value),
        dictLookup "columns" (dictcombine a [("params", p)]) =
          dictLookup "columns" a) := by
  refine ⟨?_, ?_, ?_, ?_⟩
  · intro R L rp ts sql params hres hcols
    rw [frame_resolved R L rp ts sql params hres]
    cases hl : L sql rp.engine (dictcombine rp.read_sql [("params", params)])
      with
    | error e => rfl
    | ok df0 =>
        rw [frameAfterLoad_ok_nomask rp ts df0 (Or.inl hcols)]
        rfl
  · intro R L rp ts sql params hres hcols
    rw [frame_resolved R L rp ts sql params hres]
    cases hl : L sql rp.engine (dictcombine rp.read_sql [("params", params)])
      with
    | error e => rfl
    | ok df0 =>
        rw [frameAfterLoad_ok_nomask rp ts df0 (Or.inr hcols)]
        rfl
  · intro R L rp ts sql params df0 v hres hload hcols hv
    rw [frame_resolved R L rp ts sql params hres, hload,
      frameAfterLoad_ok_mask rp ts df0 v hcols hv]
  · intro a p
    apply dictLookup_dictcombine_base
    simp [dictLookup]

/-- Witness for C9: the three masking behaviours at concrete adapters
(no `columns` key, `columns=None`, `columns=["b","a"]`). -/
theorem frame_mask_iff_columns_not_none_witness :
    (frame wR wL wRPnocols [] =
      exceptBind
        (wL "SELECT x" wRPnocols.engine
          (dictcombine wRPnocols.read_sql [("params", wParams)]))
        (applyTransforms [])) ∧
    (frame wR wL wRPnonecols [] =
      exceptBind
        (wL "SELECT x" wRPnonecols.engine
          (dictcombine wRPnonecols.read_sql [("params", wParams)]))
        (applyTransforms [])) ∧
    (frame wR wL wRPcols [] =
      exceptBind (maskColumns wDF (Value.list [Value.str "b", Value.str "a"]))
        (applyTransforms [])) :=
  ⟨frame_mask_iff_columns_not_none.1 wR wL wRPnocols [] "SELECT x" wParams
      rfl rfl,
    frame_mask_iff_columns_not_none.2.1 wR wL wRPnonecols [] "SELECT x"
      wParams rfl rfl,
    frame_mask_iff_columns_not_none.2.2.1 wR wL wRPcols [] "SELECT x" wParams
      wDF (Value.list [Value.str "b", Value.str "a"]) rfl rfl rfl
      (fun h => Value.noConfusion h)⟩

/-- C6: `frame()` is transparent to failures: an error from the dialect
resolver, from the loader, from the column projection, or from any
transformation in the chain becomes the result of `frame` unchanged — no
retry, no fallback, no partial result. -/
theorem frame_error_transparency {E G Q : Type} :
    (∀ (R : G → Q → Except String (String × Value))
        (L : String → G → Dict → Except String DataFrame)
        (rp : RedPanda E G Q)
        (ts : List (DataFrame → Except String DataFrame)) (e : String),
        R rp.engine rp.query = Except.error e →
        frame R L rp ts = Except.error e) ∧
    (∀ (R : G → Q → Except String (String × Value))
        (L : String → G → Dict → Except String DataFrame)
        (rp : RedPanda E G Q)
        (ts : List (DataFrame → Except String DataFrame))
        (sql : String) (params : Value) (e : String),
        R rp.engine rp.query = Except.ok (sql, params) →
        L sql rp.engine (dictcombine rp.read_sql [("params", params)]) =
          Except.error e →
        frame R L rp ts = Except.error e) ∧
    (∀ (R : G → Q → Except String (String × Value))
        (L : String → G → Dict → Except String DataFrame)
        (rp : RedPanda E G Q)
        (ts : List (DataFrame → Except String DataFrame))
        (sql : String) (params : Value) (df0 : DataFrame) (v : Value)
        (e : String),
        R rp.engine rp.query = Except.ok (sql, params) →
        L sql rp.engine (dictcombine rp.read_sql [("params", params)]) =
          Except.ok df0 →
        dictLookup "columns" rp.read_sql = Option.some v →
        v ≠ Value.none →
        maskColumns df0 v = Except.error e →
        frame R L rp ts = Except.error e) ∧
    (∀ (R : G → Q → Except String (String × Value))
        (L : String → G → Dict → Except String DataFrame)
        (rp : RedPanda E G Q)
        (ts1 : List (DataFrame → Except String DataFrame))
        (t : DataFrame → Except String DataFrame)
        (ts2 : List (DataFrame → Except String DataFrame))
        (df1 : DataFrame) (e : String),
        frame R L rp ts1 = Except.ok df1 →
        t df1 = Except.error e →
        frame R L rp (ts1 ++ t :: ts2) = Except.error e) := by
  refine ⟨?_, ?_, ?_, ?_⟩
  · intro R L rp ts e hres
    unfold frame
    rw [hres]
  · intro R L rp ts sql params e hres hload
    rw [frame_resolved R L rp ts sql params hres, hload]
    rfl
  · intro R L rp ts sql params df0 v e hres hload hcols hv hmask
    rw [frame_resolved R L rp ts sql params hres, hload,
      frameAfterLoad_ok_mask rp ts df0 v hcols hv, hmask]
    rfl
  · intro R L rp ts1 t ts2 df1 e h1 h2
    rw [frame_transforms_factor R L rp (ts1 ++ t :: ts2)]
    rw [frame_transforms_factor R L rp ts1] at h1
    cases hf : frame R L rp [] with
    | error e0 =>
        rw [hf] at h1
        simp only [exceptBind_error] at h1
        exact Except.noConfusion h1
    | ok d0 =>
        rw [hf] at h1
        simp only [exceptBind_ok] at h1
        simp only [exceptBind_ok]
        rw [applyTransforms_append, h1]
        simp [applyTransforms, h2]

/-- Witness for C6: the four failure points at concrete collaborators — a
failing resolver, a failing loader, a projection asking for an absent
column, and a failing transformation. -/
theorem frame_error_transparency_witness :
    (frame (fun (_ : Unit) (_ : Unit) =>
        (Except.error "resolver boom" : Except String (String × Value)))
      wL wRP [] = Except.error "resolver boom") ∧
    (frame wR (fun _ _ _ =>
        (Except.error "loader boom" : Except String DataFrame))
      wRP [] = Except.error "loader boom") ∧
    (frame wR wL wRPbadcols [] = Except.error "KeyError") ∧
    (frame wR wL wRPnocols
        [fun _ => (Except.error "transform boom" : Except String DataFrame)] =
      Except.error "transform boom") :=
  ⟨frame_error_transparency.1 _ wL wRP [] "resolver boom" rfl,
    frame_error_transparency.2.1 wR _ wRP [] "SELECT x" wParams "loader boom"
      rfl rfl,
    frame_error_transparency.2.2.1 wR wL wRPbadcols [] "SELECT x" wParams wDF
      (Value.list [Value.str "z"]) "KeyError" rfl rfl rfl
      (fun h => Value.noConfusion h) rfl,
    frame_error_transparency.2.2.2 wR wL wRPnocols []
      (fun _ => Except.error "transform boom") [] wDF "transform boom" rfl
      rfl⟩

/-- C2: when the stored options contain a `columns` list, `frame` projects
the loaded table onto exactly that ordered list before any transformation:
the chain acts on the projected table, the result (with no transformations)
has exactly those columns in that order with index, row count and retained
cell values unchanged, and a requested column absent from the loaded table
makes `frame` propagate the tabular library's `KeyError`. -/
theorem frame_columns_projection {E G Q : Type}
    (R : G → Q → Except String (String × Value))
    (L : String → G → Dict → Except String DataFrame)
    (rp : RedPanda E G Q) (sql : String) (params : Value) (df : DataFrame)
    (names : List String)
    (hres : R rp.engine rp.query = Except.ok (sql, params))
    (hload : L sql rp.engine (dictcombine rp.read_sql [("params", params)]) =
      Except.ok df)
    (hwf : WF df)
    (hcols : dictLookup "columns" rp.read_sql =
      Option.some (Value.list (names.map Value.str))) :
    (∀ ts, frame R L rp ts =
        exceptBind (selectStrCols df names) (applyTransforms ts)) ∧
    ((∀ c ∈ names, c ∈ df.columns) →
        ∃ df2, frame R L rp [] = Except.ok df2 ∧
          df2.columns = names ∧ df2.index = df.index ∧
          df2.rows.length = df.rows.length ∧
          ∀ i j, cellAt df2 i j =
            (names.get? j).bind fun c => getCell df i c) ∧
    ((∃ c, c ∈ names ∧ c ∉ df.columns) →
        frame R L rp [] = Except.error "KeyError") := by
  have hsel : ∀ ts, frame R L rp ts =
      exceptBind (selectStrCols df names) (applyTransforms ts) := by
    intro ts
    rw [frame_resolved R L rp ts sql params hres, hload,
      frameAfterLoad_ok_mask rp ts df (Value.list (names.map Value.str))
        hcols (fun h => Value.noConfusion h),
      maskColumns_str_list]
  refine ⟨hsel, ?_, ?_⟩
  · intro hall
    obtain ⟨df2, hdf2, hc, hix, hlen, hcell⟩ :=
      selectStrCols_all_present df names hwf hall
    refine ⟨df2, ?_, hc, hix, hlen, hcell⟩
    rw [hsel [], hdf2]
    rfl
  · intro hmiss
    obtain ⟨c, hc, habs⟩ := hmiss
    rw [hsel [], selectStrCols_missing df names c hc habs]
    rfl

/-- Witness for C2: projecting the concrete three-column table onto
`["b","a"]` through a concrete adapter. -/
theorem frame_columns_projection_witness :
    (∀ ts, frame wR wL wRPcols ts =
        exceptBind (selectStrCols wDF ["b", "a"]) (applyTransforms ts)) ∧
    ((∀ c ∈ ["b", "a"], c ∈ wDF.columns) →
        ∃ df2, frame wR wL wRPcols [] = Except.ok df2 ∧
          df2.columns = ["b", "a"] ∧ df2.index = wDF.index ∧
          df2.rows.length = wDF.rows.length ∧
          ∀ i j, cellAt df2 i j =
            (["b", "a"].get? j).bind fun c => getCell wDF i c) ∧
    ((∃ c, c ∈ ["b", "a"] ∧ c ∉ wDF.columns) →
        frame wR wL wRPcols [] = Except.error "KeyError") :=
  frame_columns_projection wR wL wRPcols "SELECT x" wParams wDF ["b", "a"]
    rfl rfl
    ⟨rfl, by intro r hr; fin_cases hr <;> rfl⟩ rfl

/-- `wDF` with different row-index labels but identical columns and rows. -/
def wDFalt : DataFrame :=
  { columns := ["a", "b", "c"],
    index := [Value.str "x", Value.str "y"],
    rows := [[Value.int 1, Value.int 2, Value.int 3],
             [Value.int 4, Value.int 5, Value.int 6]] }

/-- A concrete empty table (columns but no rows). -/
def wDFempty : DataFrame :=
  { columns := ["a", "b", "c"], index := [], rows := [] }

/-- A concrete table whose second row makes `wCtor` fail (`a` is not an
integer there). -/
def wDFbad : DataFrame :=
  { columns := ["a"],
    index := [Value.int 10, Value.int 11, Value.int 12],
    rows := [[Value.int 1], [Value.str "x"], [Value.int 3]] }

/-- C4: when the entity constructor accepts every row mapping, `parse`
yields exactly one entity per row, in the table's row order, each entity
being the constructor's result on that row's column-name-to-value mapping;
on an empty table it yields the empty sequence. -/
theorem parse_yields_row_entities {E G Q : Type} (rp : RedPanda E G Q)
    (df : DataFrame) (ents : List E)
    (hlen : df.index.length = df.rows.length)
    (hok : mapMOpt (fun d => exceptToOption (rp.ormcls d))
        (df.rows.map (rowDict df.columns)) = Option.some ents) :
    parse rp df = (ents, Option.none) ∧
      ents.length = df.rows.length ∧
      (∀ j, ents.get? j = (df.rows.get? j).bind fun r =>
        exceptToOption (rp.ormcls (rowDict df.columns r))) ∧
      (df.rows = [] → parse rp df = ([], Option.none)) := by
  have h1 : parse rp df = (ents, Option.none) := by
    rw [parse_eq_parseDicts rp df hlen]
    exact parseDicts_all_ok rp.ormcls _ ents hok
  have h2 : ents.length = df.rows.length := by
    have := mapMOpt_length _ _ _ hok
    simpa using this
  refine ⟨h1, h2, ?_, ?_⟩
  · intro j
    rw [mapMOpt_get? _ _ _ hok j, List.get?_map]
    cases df.rows.get? j <;> simp
  · intro hnil
    have hents : ents = [] := by
      rw [← List.length_eq_zero, h2, hnil]
      rfl
    rw [h1, hents]

/-- Witness for C4: two entities from the concrete two-row table, and the
empty sequence from the concrete empty table. -/
theorem parse_yields_row_entities_witness :
    (parse wRP wDF = ([(1 : Int), 4], Option.none) ∧
      ([(1 : Int), 4]).length = wDF.rows.length ∧
      (∀ j, ([(1 : Int), 4]).get? j = (wDF.rows.get? j).bind fun r =>
        exceptToOption (wRP.ormcls (rowDict wDF.columns r))) ∧
      (wDF.rows = [] → parse wRP wDF = ([], Option.none))) ∧
    parse wRP wDFempty = ([], Option.none) :=
  ⟨parse_yields_row_entities wRP wDF [1, 4] rfl rfl,
    (parse_yields_row_entities wRP wDFempty [] rfl rfl).1⟩

/-- C7: `parse` is lazy: when the constructor accepts the first `i` rows and
fails on row `i`, the yielded sequence holds exactly the `i` entities of the
earlier rows (each still the constructor's result on its row), the failure
surfaces as the terminating error, and no entity is produced for any later
row. -/
theorem parse_lazy_error_at_row {E G Q : Type} (rp : RedPanda E G Q)
    (df : DataFrame) (i : Nat) (e : String)
    (hlen : df.index.length = df.rows.length)
    (hpre : ∀ j, j < i → ∃ r a, df.rows.get? j = Option.some r ∧
        rp.ormcls (rowDict df.columns r) = Except.ok a)
    (hi : ∃ r, df.rows.get? i = Option.some r ∧
        rp.ormcls (rowDict df.columns r) = Except.error e) :
    (parse rp df).1.length = i ∧ (parse rp df).2 = Option.some e ∧
      ∀ j, j < i → (parse rp df).1.get? j =
        (df.rows.get? j).bind fun r =>
          exceptToOption (rp.ormcls (rowDict df.columns r)) := by
  rw [parse_eq_parseDicts rp df hlen]
  have hpre' : ∀ j, j < i → ∃ d a,
      (df.rows.map (rowDict df.columns)).get? j = Option.some d ∧
      rp.ormcls d = Except.ok a := by
    intro j hj
    obtain ⟨r, a, hr, ha⟩ := hpre j hj
    exact ⟨rowDict df.columns r, a, by rw [List.get?_map, hr]; rfl, ha⟩
  have hi' : ∃ d, (df.rows.map (rowDict df.columns)).get? i = Option.some d ∧
      rp.ormcls d = Except.error e := by
    obtain ⟨r, hr, ha⟩ := hi
    exact ⟨rowDict df.columns r, by rw [List.get?_map, hr]; rfl, ha⟩
  obtain ⟨h1, h2, h3⟩ := parseDicts_prefix_error rp.ormcls i
    (df.rows.map (rowDict df.columns)) e hpre' hi'
  refine ⟨h1, h2, ?_⟩
  intro j hj
  rw [h3 j hj, List.get?_map]
  cases df.rows.get? j <;> simp

/-- Witness for C7: the constructor accepts row 0 and fails on row 1 of the
concrete three-row table, so exactly one entity is yielded. -/
theorem parse_lazy_error_at_row_witness :
    (parse wRP wDFbad).1.length = 1 ∧
      (parse wRP wDFbad).2 = Option.some "badrow" ∧
      ∀ j, j < 1 → (parse wRP wDFbad).1.get? j =
        (wDFbad.rows.get? j).bind fun r =>
          exceptToOption (wRP.ormcls (rowDict wDFbad.columns r)) :=
  parse_lazy_error_at_row wRP wDFbad 1 "badrow" rfl
    (by
      intro j hj
      cases j with
      | zero => exact ⟨[Value.int 1], 1, rfl, rfl⟩
      | succ n => exact absurd hj (by omega))
    ⟨[Value.str "x"], rfl, rfl⟩

/-- C10: `parse` constructs entities from the rows' column-name-to-value
mappings only: two well-formed tables with the same columns and rows but
different row indexes produce identical parse results — the index label
never reaches the entity constructor. -/
theorem parse_ignores_row_index {E G Q : Type} (rp : RedPanda E G Q)
    (df1 df2 : DataFrame)
    (hcols : df1.columns = df2.columns) (hrows : df1.rows = df2.rows)
    (h1 : df1.index.length = df1.rows.length)
    (h2 : df2.index.length = df2.rows.length) :
    parse rp df1 = parse rp df2 := by
  rw [parse_eq_parseDicts rp df1 h1, parse_eq_parseDicts rp df2 h2, hcols,
    hrows]

/-- Witness for C10: the concrete table with integer index labels parses
identically to the same table with string index labels. -/
theorem parse_ignores_row_index_witness :
    parse wRP wDF = parse wRP wDFalt :=
  parse_ignores_row_index wRP wDF wDFalt rfl rfl rfl rfl

end RedpandaSpec
